import Mathlib

/-!
Verification development for the three-step recall resolution flow
(RecallDetailModal orchestrator, RecallDetailStep1/2/3 step views,
and the duplicate ActionGuideScreen / SafetyScreen implementations).
The definitions below are a shallow embedding of the TypeScript source:
React component state becomes explicit state records, event handlers
become state-transition functions, and the presentation-layer delays
(toast display, slide animations) are treated as synchronous, as the
specification's concurrency section prescribes.
-/

namespace RecallFlow

/-- Severity enumeration of a recall record (source: RecallDetailModal props). -/
inductive Severity
  | Critical
  | High
  | Medium
  | Low
deriving DecidableEq

/-- Optional manufacturer contact info (source: the contactInfo field). -/
structure ContactInfo where
  phone : Option String := none
  email : Option String := none
  website : Option String := none
deriving DecidableEq

/-- The recall record passed into the flow (source: the RecallDetailModal
props, restricted to the fields the flow logic reads; the source prop is
named recall, which Lean reserves, hence recallProp below). -/
structure RecallRecord where
  id : String
  productName : String
  brand : Option String := none
  model : String
  manufacturer : String
  severity : Severity
  description : String
  actions : List String
  contactInfo : Option ContactInfo := none
deriving DecidableEq

/-- One checklist entry of RecallDetailStep2's fixed checklist. -/
structure ChecklistItem where
  id : Nat
  label : String
  icon : String
  hasVisualGuide : Bool := false
deriving DecidableEq

/-- The checklist rendered by RecallDetailStep2. The source builds a fixed
3-step list (ids 1, 2, 3) and does not read the record's actions array
(RecallDetailStep2.tsx lines 56-76). The record parameter is taken to mirror
the component receiving it as a prop. -/
def step2Steps (_recallProp : RecallRecord) : List ChecklistItem :=
  [ { id := 1, label := "Stop using the product immediately", icon := "⚠️" },
    { id := 2, label := "Verify your model number", icon := "🔍", hasVisualGuide := true },
    { id := 3, label := "Contact manufacturer for remedy", icon := "📞" } ]

/-- Ids of the rendered checklist entries, in render order. -/
def stepIds (recallProp : RecallRecord) : List Nat :=
  (step2Steps recallProp).map (fun st => st.id)

/-- Number of acknowledgement toggles RecallDetailStep2 renders: one per
element of its steps list (steps.map over checkbox rows). -/
def renderedToggleCount (recallProp : RecallRecord) : Nat :=
  (step2Steps recallProp).length

/-- Source: `const totalSteps = steps.length`. -/
def totalSteps (recallProp : RecallRecord) : Nat :=
  (step2Steps recallProp).length

/-- Source: `const allStepsComplete = checkedSteps.length === totalSteps`. -/
def allStepsComplete (recallProp : RecallRecord) (checkedSteps : List Nat) : Bool :=
  checkedSteps.length == totalSteps recallProp

/-- Initial value of RecallDetailStep2's checkedSteps state:
`useState<number[]>([])`. -/
def step2InitialCheckedSteps : List Nat := []

/-- Source (RecallDetailStep2.tsx lines 81-87): remove the id when present,
append it when absent. No id is locked in this component. -/
def toggleStep (stepId : Nat) (prev : List Nat) : List Nat :=
  if stepId ∈ prev then prev.filter (fun i => i != stepId)
  else prev ++ [stepId]

/-- Acknowledgement of every rendered checklist item. -/
def allItemsAcknowledged (recallProp : RecallRecord) (checkedSteps : List Nat) : Prop :=
  ∀ i ∈ stepIds recallProp, i ∈ checkedSteps

instance (recallProp : RecallRecord) (checkedSteps : List Nat) :
    Decidable (allItemsAcknowledged recallProp checkedSteps) :=
  List.decidableBAll _ _

/-- One checklist entry of ActionGuideScreen. -/
structure AgChecklistItem where
  id : String
  label : String
  locked : Bool := false
deriving DecidableEq

/-- ActionGuideScreen's fixed checklist; the first item is marked locked. -/
def agSteps : List AgChecklistItem :=
  [ { id := "step1", label := "Stop using the product immediately", locked := true },
    { id := "step2", label := "Check model number" },
    { id := "step3", label := "Contact manufacturer" } ]

/-- ActionGuideScreen: `useState<string[]>(['step1'])` - step 1 checked by default. -/
def agInitialCheckedSteps : List String := ["step1"]

/-- Source (ActionGuideScreen.tsx lines 74-82): toggling 'step1' returns
without touching state; other ids are removed when present, appended when
absent. -/
def agToggleStep (stepId : String) (prev : List String) : List String :=
  if stepId = "step1" then prev
  else if stepId ∈ prev then prev.filter (fun i => i != stepId)
  else prev ++ [stepId]

/-- Slide direction of the orchestrator's transition animation. -/
inductive SlideDirection
  | forward
  | backward
deriving DecidableEq

/-- Combined session state: the orchestrator's state (isOpen from the parent,
currentStep, slideDirection) together with Step 2's mounted local checklist
state (fresh on every mount of RecallDetailStep2), and whether the parent
supplied an onCloseWithSuccess callback. -/
structure ModalState where
  isOpen : Bool
  recallProp : Option RecallRecord
  currentStep : Nat
  slideDirection : SlideDirection
  checkedSteps : List Nat
  hasOnCloseWithSuccess : Bool
deriving DecidableEq

/-- A closed modal with no recall record bound. -/
def closedModal : ModalState :=
  { isOpen := false, recallProp := none, currentStep := 1,
    slideDirection := .forward, checkedSteps := [],
    hasOnCloseWithSuccess := true }

/-- Opening the flow: the parent binds the recall record and sets isOpen; the
orchestrator's `useEffect` on isOpen resets currentStep to 1 and
slideDirection to forward (RecallDetailModal.tsx lines 84-90). -/
def openModal (s : ModalState) (recallProp : RecallRecord) : ModalState :=
  { s with isOpen := true, recallProp := some recallProp, currentStep := 1,
           slideDirection := .forward, checkedSteps := [] }

/-- Outbound notifications from the flow to its parent. -/
inductive OutEvent
  | close
  | closeWithSuccess
  | notApplicableToast
deriving DecidableEq

/-- Source (RecallDetailModal.tsx lines 95-117): hasProduct true sets
direction forward and currentStep 2 (Step 2 mounts with fresh checklist
state); hasProduct false shows the not-applicable toast and closes the modal
(the 300ms display delay before onClose is presentation-layer only). -/
def handleStep1Confirm (s : ModalState) (hasProduct : Bool) :
    ModalState × List OutEvent :=
  if hasProduct then
    ({ s with slideDirection := .forward, currentStep := 2, checkedSteps := [] }, [])
  else
    ({ s with isOpen := false }, [.notApplicableToast, .close])

/-- Source (RecallDetailModal.tsx lines 119-122): unconditionally advance to
Step 3 with direction forward. Reached only through Step 2's gated
handleMarkAsDone. -/
def handleStep2Complete (s : ModalState) : ModalState :=
  { s with slideDirection := .forward, currentStep := 3 }

/-- Source (RecallDetailModal.tsx lines 128-131). -/
def handleBackToStep1 (s : ModalState) : ModalState :=
  { s with slideDirection := .backward, currentStep := 1 }

/-- Source (RecallDetailModal.tsx lines 133-136): set direction backward and
currentStep 2 (a remounted Step 2 starts with fresh checklist state). The
orchestrator defines this handler but never passes it to RecallDetailStep3,
whose props are only the record and onClose. -/
def handleBackToStep2 (s : ModalState) : ModalState :=
  { s with slideDirection := .backward, currentStep := 2, checkedSteps := [] }

/-- Source (RecallDetailStep2.tsx lines 106-110): call onComplete only when
allStepsComplete holds; otherwise do nothing. -/
def handleMarkAsDone (recallProp : RecallRecord) (s : ModalState) : ModalState :=
  if allStepsComplete recallProp s.checkedSteps then handleStep2Complete s else s

/-- The discrete user events the rendered flow offers. Toggle events carry
the index of one of the three rendered checklist rows; each row's click
handler calls toggleStep with that row's id. -/
inductive UiEvent
  | confirm (hasProduct : Bool)
  | toggle (idx : Fin 3)
  | markAsDone
  | backToStep1
  | finish
  | share
  | externalClose
deriving DecidableEq

/-- All user events of the flow (confirm takes a Bool, toggle a Fin 3). -/
def allUiEvents : List UiEvent :=
  [ .confirm true, .confirm false, .toggle 0, .toggle 1, .toggle 2,
    .markAsDone, .backToStep1, .finish, .share, .externalClose ]

/-- One synchronous step of the flow, with emitted parent notifications.
Events are dispatched only to the handlers of the currently mounted step
component; the modal renders nothing when closed or when the record is null
(RecallDetailModal.tsx line 92), so no event fires then. Step 3's primary
button calls its onClose prop, which the orchestrator wires to
onCloseWithSuccess when the parent supplied it and to onClose otherwise
(RecallDetailModal.tsx lines 380-387). -/
def stepE (s : ModalState) (e : UiEvent) : ModalState × List OutEvent :=
  match s.isOpen, s.recallProp with
  | true, some r =>
    match e with
    | .confirm b =>
        if s.currentStep = 1 then handleStep1Confirm s b else (s, [])
    | .toggle i =>
        if s.currentStep = 2 then
          ({ s with checkedSteps := toggleStep ((stepIds r).getD i.val 0) s.checkedSteps }, [])
        else (s, [])
    | .markAsDone =>
        if s.currentStep = 2 then (handleMarkAsDone r s, []) else (s, [])
    | .backToStep1 =>
        if s.currentStep = 2 then (handleBackToStep1 s, []) else (s, [])
    | .finish =>
        if s.currentStep = 3 then
          ({ s with isOpen := false },
           [if s.hasOnCloseWithSuccess then .closeWithSuccess else .close])
        else (s, [])
    | .share => (s, [])
    | .externalClose => ({ s with isOpen := false }, [.close])
  | _, _ => (s, [])

/-- The state part of stepE. -/
def step (s : ModalState) (e : UiEvent) : ModalState :=
  (stepE s e).1

/-- Run a sequence of user events. -/
def run (s : ModalState) (es : List UiEvent) : ModalState :=
  es.foldl step s

/-- State of the SafetyScreen parent that hosts the modal (the fields
involved in completing a recall). -/
structure SafetyScreenState where
  selectedRecall : Option RecallRecord
  showSuccessBanner : Bool
  successTimestamp : String
deriving DecidableEq

/-- Model of `toLocaleTimeString('en-US', { hour: 'numeric',
minute: '2-digit', hour12: true })` on a clock time (hour, minute). -/
def formatTimeUS (hour minute : Nat) : String :=
  let h12 := if hour % 12 = 0 then 12 else hour % 12
  let ampm := if hour < 12 then "AM" else "PM"
  let mm := if minute < 10 then "0" ++ toString minute else toString minute
  toString h12 ++ ":" ++ mm ++ " " ++ ampm

/-- Source (RecallDetailStep3.tsx, SafetyScreen section, lines 820-832):
the onCloseWithSuccess callback takes no arguments; it records the locale
clock time, shows the success banner and closes the modal by clearing
selectedRecall. The current clock time is passed explicitly here. -/
def handleRecallCompleted (s : SafetyScreenState) (hour minute : Nat) :
    SafetyScreenState :=
  { s with successTimestamp := formatTimeUS hour minute,
           showSuccessBanner := true,
           selectedRecall := none }

/-- Characters an ISO-8601 timestamp may contain. -/
def isISO8601Char (c : Char) : Bool :=
  c.isDigit || c = '-' || c = ':' || c = 'T' || c = 'Z' || c = '+' || c = '.'

/-- Follows the specification's words, for comparison with the code: an
ISO-8601 completion timestamp (a date-time such as 2024-01-15T15:05:00Z) is
built from digits and the separators of that syntax, with a T between date
and time. -/
def isISO8601Timestamp (s : String) : Bool :=
  s.data.all isISO8601Char && s.data.contains 'T'

/-- The first mock recall of SafetyScreen (id 1, the DreamNest crib), whose
actions list has four entries. -/
def dreamNestRecall : RecallRecord :=
  { id := "1",
    productName := "DreamNest Baby Crib",
    brand := some "DreamNest",
    model := "DN-2024-CR",
    manufacturer := "DreamNest Inc.",
    severity := .Critical,
    description := "The mattress support brackets can detach from the crib frame, causing the mattress to fall and creating a serious fall and entrapment hazard for infants.",
    actions :=
      [ "Stop using the crib immediately",
        "Contact DreamNest for a free repair kit",
        "Do not attempt to repair yourself",
        "Request full refund if repair is not satisfactory" ],
    contactInfo := some
      { phone := some "1-800-555-CRIB",
        email := some "recall@dreamnest.com",
        website := some "https://dreamnest.com/recall" } }

/-! Helper lemmas shared by the claim theorems. -/

theorem stepIds_eq (r : RecallRecord) : stepIds r = [1, 2, 3] := rfl

theorem totalSteps_eq (r : RecallRecord) : totalSteps r = 3 := rfl

theorem toggleStep_nodup (stepId : Nat) (prev : List Nat) (h : prev.Nodup) :
    (toggleStep stepId prev).Nodup := by
  unfold toggleStep
  split_ifs with hmem
  · exact h.filter _
  · rw [List.nodup_append]
    refine ⟨h, List.nodup_singleton _, ?_⟩
    intro a ha hb
    simp only [List.mem_singleton] at hb
    exact hmem (hb ▸ ha)

theorem mem_of_mem_toggleStep (stepId : Nat) (prev : List Nat) (x : Nat)
    (hx : x ∈ toggleStep stepId prev) : x ∈ prev ∨ x = stepId := by
  unfold toggleStep at hx
  split_ifs at hx with hmem
  · exact Or.inl (List.mem_of_mem_filter hx)
  · rcases List.mem_append.mp hx with h | h
    · exact Or.inl h
    · exact Or.inr (List.mem_singleton.mp h)

theorem self_mem_toggleStep (stepId : Nat) (prev : List Nat) :
    stepId ∈ toggleStep stepId prev ↔ stepId ∉ prev := by
  unfold toggleStep
  split_ifs with hmem
  · simp [List.mem_filter, hmem]
  · simp [hmem]

theorem mem_toggleStep_toggleStep (stepId x : Nat) (prev : List Nat) :
    x ∈ toggleStep stepId (toggleStep stepId prev) ↔ x ∈ prev := by
  unfold toggleStep
  by_cases hmem : stepId ∈ prev
  · have hnot : stepId ∉ prev.filter (fun i => i != stepId) := by
      simp [List.mem_filter]
    simp only [hmem, if_true, hnot, if_false]
    by_cases hx : x = stepId
    · subst hx; simp [hmem]
    · simp [List.mem_append, List.mem_filter, hx]
  · have hin : stepId ∈ prev ++ [stepId] := by simp
    simp only [hmem, if_false, hin, if_true]
    by_cases hx : x = stepId
    · subst hx; simp [List.mem_filter, hmem]
    · simp [List.mem_filter, List.mem_append, hx]

theorem mem_agToggleStep_agToggleStep (stepId x : String) (hlock : stepId ≠ "step1")
    (prev : List String) :
    x ∈ agToggleStep stepId (agToggleStep stepId prev) ↔ x ∈ prev := by
  unfold agToggleStep
  simp only [hlock, if_false]
  by_cases hmem : stepId ∈ prev
  · have hnot : stepId ∉ prev.filter (fun i => i != stepId) := by
      simp [List.mem_filter]
    simp only [hmem, if_true, hnot, if_false]
    by_cases hx : x = stepId
    · subst hx; simp [hmem]
    · simp [List.mem_append, List.mem_filter, hx]
  · have hin : stepId ∈ prev ++ [stepId] := by simp
    simp only [hmem, if_false, hin, if_true]
    by_cases hx : x = stepId
    · subst hx; simp [List.mem_filter, hmem]
    · simp [List.mem_filter, List.mem_append, hx]

theorem agToggleStep_locked (prev : List String) :
    agToggleStep "step1" prev = prev := by
  unfold agToggleStep
  simp

theorem allStepsComplete_iff (r : RecallRecord) (checked : List Nat)
    (hnd : checked.Nodup) (hsub : ∀ i ∈ checked, i ∈ stepIds r) :
    allStepsComplete r checked = true ↔ allItemsAcknowledged r checked := by
  have hsub2 : checked ⊆ [1, 2, 3] := fun a ha => stepIds_eq r ▸ hsub a ha
  constructor
  · intro h
    have hlen : checked.length = 3 := by
      simpa [allStepsComplete, totalSteps_eq] using h
    have hsp : List.Subperm checked [1, 2, 3] := List.subperm_of_subset hnd hsub2
    have hperm : checked.Perm [1, 2, 3] :=
      hsp.perm_of_length_le (by simp [hlen])
    intro i hi
    rw [stepIds_eq] at hi
    exact hperm.mem_iff.mpr hi
  · intro h
    have hsub3 : ([1, 2, 3] : List Nat) ⊆ checked := by
      intro a ha
      exact h a (by rw [stepIds_eq]; exact ha)
    have h1 : List.Subperm ([1, 2, 3] : List Nat) checked :=
      List.subperm_of_subset (by decide) hsub3
    have h2 : List.Subperm checked [1, 2, 3] := List.subperm_of_subset hnd hsub2
    have hlen : checked.length = 3 :=
      le_antisymm (by simpa using h2.length_le) (by simpa using h1.length_le)
    simp [allStepsComplete, totalSteps_eq, hlen]

theorem step_currentStep_cases (u : ModalState) (e : UiEvent) :
    (step u e).currentStep = u.currentStep ∨
    (u.currentStep = 1 ∧ (step u e).currentStep = 2) ∨
    (u.currentStep = 2 ∧ (step u e).currentStep = 3) ∨
    (u.currentStep = 2 ∧ (step u e).currentStep = 1) := by
  cases ho : u.isOpen
  · simp [step, stepE, ho]
  · cases hr : u.recallProp with
    | none => simp [step, stepE, ho, hr]
    | some r =>
      cases e with
      | confirm b =>
        by_cases h1 : u.currentStep = 1
        · cases b
          · simp [step, stepE, ho, hr, h1, handleStep1Confirm]
          · simp [step, stepE, ho, hr, h1, handleStep1Confirm]
        · simp [step, stepE, ho, hr, h1]
      | toggle i =>
        by_cases h2 : u.currentStep = 2
        · simp [step, stepE, ho, hr, h2]
        · simp [step, stepE, ho, hr, h2]
      | markAsDone =>
        by_cases h2 : u.currentStep = 2
        · by_cases hc : allStepsComplete r u.checkedSteps
          · simp [step, stepE, ho, hr, h2, handleMarkAsDone, hc, handleStep2Complete]
          · simp [step, stepE, ho, hr, h2, handleMarkAsDone, hc]
        · simp [step, stepE, ho, hr, h2]
      | backToStep1 =>
        by_cases h2 : u.currentStep = 2
        · simp [step, stepE, ho, hr, h2, handleBackToStep1]
        · simp [step, stepE, ho, hr, h2]
      | finish =>
        by_cases h3 : u.currentStep = 3
        · simp [step, stepE, ho, hr, h3]
        · simp [step, stepE, ho, hr, h3]
      | share => simp [step, stepE, ho, hr]
      | externalClose => simp [step, stepE, ho, hr]

theorem step_mem_range (u : ModalState) (e : UiEvent)
    (h : u.currentStep ∈ ([1, 2, 3] : List Nat)) :
    (step u e).currentStep ∈ ([1, 2, 3] : List Nat) := by
  rcases step_currentStep_cases u e with hc | ⟨_, hc⟩ | ⟨_, hc⟩ | ⟨_, hc⟩
  · rw [hc]; exact h
  · rw [hc]; simp
  · rw [hc]; simp
  · rw [hc]; simp

theorem run_mem_range (s0 : ModalState) (es : List UiEvent)
    (h : s0.currentStep ∈ ([1, 2, 3] : List Nat)) :
    (run s0 es).currentStep ∈ ([1, 2, 3] : List Nat) := by
  induction es generalizing s0 with
  | nil => exact h
  | cons e es ih => exact ih (step s0 e) (step_mem_range s0 e h)

theorem string_data_append (a b : String) : (a ++ b).data = a.data ++ b.data := by
  cases a
  cases b
  rfl

theorem formatTimeUS_not_iso (hour minute : Nat) :
    isISO8601Timestamp (formatTimeUS hour minute) = false := by
  unfold formatTimeUS isISO8601Timestamp
  simp only []
  by_cases h12 : hour < 12
  · simp only [h12, if_true]
    rw [string_data_append, List.all_append]
    have : ("AM".data.all isISO8601Char) = false := by decide
    rw [this, Bool.and_false, Bool.false_and]
  · simp only [h12, if_false]
    rw [string_data_append, List.all_append]
    have : ("PM".data.all isISO8601Char) = false := by decide
    rw [this, Bool.and_false, Bool.false_and]

/-- A concrete Step-2 session state of the flow: the DreamNest recall open
on Step 2 with two of the three checklist items acknowledged. -/
def c1State : ModalState :=
  { isOpen := true, recallProp := some dreamNestRecall, currentStep := 2,
    slideDirection := .forward, checkedSteps := [1, 2],
    hasOnCloseWithSuccess := true }

/-- C1: in Step 2, the proceed action (Mark as Done) leaves the session
state — in particular currentStep — completely unchanged whenever some
checklist item is unacknowledged, and moves the flow to Step 3 (direction
forward) when every item is acknowledged. The guard sits inside the
handleMarkAsDone handler itself, so a programmatic call with an incomplete
checklist never changes currentStep, independently of the disabled state of
the UI button. -/
theorem C1_proceed_gate (s : ModalState) (r : RecallRecord)
    (ho : s.isOpen = true) (hr : s.recallProp = some r) (h2 : s.currentStep = 2)
    (hnd : s.checkedSteps.Nodup) (hsub : ∀ i ∈ s.checkedSteps, i ∈ stepIds r) :
    (¬ allItemsAcknowledged r s.checkedSteps → step s .markAsDone = s) ∧
    (allItemsAcknowledged r s.checkedSteps →
      (step s .markAsDone).currentStep = 3 ∧
      (step s .markAsDone).slideDirection = .forward) := by
  have hiff := allStepsComplete_iff r s.checkedSteps hnd hsub
  constructor
  · intro hnot
    have hfalse : allStepsComplete r s.checkedSteps = false := by
      cases hb : allStepsComplete r s.checkedSteps
      · rfl
      · exact absurd (hiff.mp hb) hnot
    simp [step, stepE, ho, hr, h2, handleMarkAsDone, hfalse]
  · intro hall
    have htrue : allStepsComplete r s.checkedSteps = true := hiff.mpr hall
    constructor
    · simp [step, stepE, ho, hr, h2, handleMarkAsDone, htrue, handleStep2Complete]
    · simp [step, stepE, ho, hr, h2, handleMarkAsDone, htrue, handleStep2Complete]

/-- Witness for C1: at the concrete Step-2 state with items 1 and 2 checked
but not 3, the proceed action is rejected and the state is unchanged. -/
theorem C1_proceed_gate_witness :
    (¬ allItemsAcknowledged dreamNestRecall c1State.checkedSteps →
      step c1State .markAsDone = c1State) ∧
    (allItemsAcknowledged dreamNestRecall c1State.checkedSteps →
      (step c1State .markAsDone).currentStep = 3 ∧
      (step c1State .markAsDone).slideDirection = .forward) :=
  C1_proceed_gate c1State dreamNestRecall rfl rfl rfl (by decide) (by decide)

/-- C2 counterexample: in the session that has just entered Step 2 of the
flow (DreamNest recall, Yes answered on Step 1), the first checklist item
(id 1) is NOT pre-checked — the acknowledgement state is empty — and
toggling that first item changes the state, so it is not locked. -/
theorem C2_locked_first_item_cex :
    (step (openModal closedModal dreamNestRecall) (.confirm true)).currentStep = 2 ∧
    (step (openModal closedModal dreamNestRecall) (.confirm true)).checkedSteps = [] ∧
    (stepIds dreamNestRecall).head? = some 1 ∧
    (1 : Nat) ∉ (step (openModal closedModal dreamNestRecall) (.confirm true)).checkedSteps ∧
    (step (step (openModal closedModal dreamNestRecall) (.confirm true))
        (.toggle 0)).checkedSteps ≠
      (step (openModal closedModal dreamNestRecall) (.confirm true)).checkedSteps := by
  decide

/-- C2 (amended): in the flow's own Step 2 (RecallDetailStep2) no checklist
item is pre-checked on entry — the acknowledgement state starts empty — and
every item, the first included, toggles freely; the pre-checked locked first
item exists only in the duplicate ActionGuideScreen implementation, whose
entry state is ['step1'] and whose toggle on 'step1' is a no-op. -/
theorem C2_locked_first_item_amended (s : ModalState) (r : RecallRecord)
    (prev : List Nat) (stepId : Nat) (agPrev : List String) :
    (step (openModal s r) (.confirm true)).currentStep = 2 ∧
    (step (openModal s r) (.confirm true)).checkedSteps = [] ∧
    (stepId ∈ toggleStep stepId prev ↔ stepId ∉ prev) ∧
    "step1" ∈ agInitialCheckedSteps ∧
    agToggleStep "step1" agPrev = agPrev := by
  refine ⟨?_, ?_, self_mem_toggleStep _ _, by decide, agToggleStep_locked _⟩
  · simp [step, stepE, openModal, handleStep1Confirm]
  · simp [step, stepE, openModal, handleStep1Confirm]

/-- C3 counterexample: the DreamNest record carries four remediation
actions, yet Step 2 renders its fixed three acknowledgement toggles. -/
theorem C3_toggle_per_action_cex :
    renderedToggleCount dreamNestRecall = 3 ∧
    dreamNestRecall.actions.length = 4 ∧
    renderedToggleCount dreamNestRecall ≠ dreamNestRecall.actions.length := by
  decide

/-- C3 (amended): Step 2's checklist is the fixed three-entry list (stop
use, verify model, contact manufacturer), not derived from the record's
actions; every record yields exactly three toggles with ids 1, 2, 3 in
order. The repository's data-binding guide notes this fixed checklist. -/
theorem C3_toggle_per_action_amended (r : RecallRecord) :
    renderedToggleCount r = 3 ∧ stepIds r = [1, 2, 3] :=
  ⟨rfl, rfl⟩

/-- C4 counterexample: completing the flow at clock time 15:05 makes the
parent record the locale string 3:05 PM, which is not an ISO-8601 timestamp;
the success callback itself carries no recall id and no timestamp argument. -/
theorem C4_resolved_event_cex :
    (handleRecallCompleted
      { selectedRecall := some dreamNestRecall, showSuccessBanner := false,
        successTimestamp := "" } 15 5).successTimestamp = "3:05 PM" ∧
    isISO8601Timestamp "3:05 PM" = false := by
  constructor
  · decide
  · decide

/-- C4 (amended): finish from Step 3 closes the flow and notifies the parent
exactly once through the success callback, but that callback carries no
arguments — no recall id — and the parent itself records the current locale
clock time, which is never an ISO-8601 timestamp. -/
theorem C4_resolved_event_amended (s : ModalState) (r : RecallRecord)
    (ho : s.isOpen = true) (hr : s.recallProp = some r) (h3 : s.currentStep = 3)
    (hcb : s.hasOnCloseWithSuccess = true)
    (p : SafetyScreenState) (hour minute : Nat) :
    (stepE s .finish).1.isOpen = false ∧
    (stepE s .finish).2 = [.closeWithSuccess] ∧
    (stepE s .finish).2.count .closeWithSuccess = 1 ∧
    (handleRecallCompleted p hour minute).selectedRecall = none ∧
    (handleRecallCompleted p hour minute).showSuccessBanner = true ∧
    (handleRecallCompleted p hour minute).successTimestamp = formatTimeUS hour minute ∧
    isISO8601Timestamp (handleRecallCompleted p hour minute).successTimestamp = false := by
  have hmain : stepE s .finish = ({ s with isOpen := false }, [.closeWithSuccess]) := by
    simp [stepE, ho, hr, h3, hcb]
  refine ⟨by rw [hmain], by rw [hmain], by rw [hmain]; rfl, rfl, rfl, rfl, ?_⟩
  exact formatTimeUS_not_iso hour minute

/-- Witness for C4 (amended) at a concrete Step-3 session and the parent
completing at 15:05. -/
theorem C4_resolved_event_witness :
    (stepE { isOpen := true, recallProp := some dreamNestRecall, currentStep := 3,
             slideDirection := .forward, checkedSteps := [],
             hasOnCloseWithSuccess := true } .finish).1.isOpen = false ∧
    (stepE { isOpen := true, recallProp := some dreamNestRecall, currentStep := 3,
             slideDirection := .forward, checkedSteps := [],
             hasOnCloseWithSuccess := true } .finish).2 = [.closeWithSuccess] ∧
    (stepE { isOpen := true, recallProp := some dreamNestRecall, currentStep := 3,
             slideDirection := .forward, checkedSteps := [],
             hasOnCloseWithSuccess := true } .finish).2.count .closeWithSuccess = 1 ∧
    (handleRecallCompleted
      { selectedRecall := some dreamNestRecall, showSuccessBanner := false,
        successTimestamp := "" } 15 5).selectedRecall = none ∧
    (handleRecallCompleted
      { selectedRecall := some dreamNestRecall, showSuccessBanner := false,
        successTimestamp := "" } 15 5).showSuccessBanner = true ∧
    (handleRecallCompleted
      { selectedRecall := some dreamNestRecall, showSuccessBanner := false,
        successTimestamp := "" } 15 5).successTimestamp = formatTimeUS 15 5 ∧
    isISO8601Timestamp
      (handleRecallCompleted
        { selectedRecall := some dreamNestRecall, showSuccessBanner := false,
          successTimestamp := "" } 15 5).successTimestamp = false :=
  C4_resolved_event_amended _ dreamNestRecall rfl rfl rfl rfl _ 15 5

/-- C5: every open call re-initializes currentStep to 1 with direction
forward and binds the new recall, for any prior session state (whatever step
it ended on) and any previously shown recall. -/
theorem C5_open_resets (s : ModalState) (r : RecallRecord) :
    (openModal s r).currentStep = 1 ∧
    (openModal s r).slideDirection = .forward ∧
    (openModal s r).isOpen = true ∧
    (openModal s r).recallProp = some r ∧
    (openModal s r).checkedSteps = [] :=
  ⟨rfl, rfl, rfl, rfl, rfl⟩

/-- C6: starting from any open call, every sequence of user events keeps
currentStep inside {1,2,3}; each single transition either leaves the step
unchanged or follows a row of the section 4.1 table; and from Step 1 no
single transition ever reaches Step 3. -/
theorem C6_transition_safety (s : ModalState) (r : RecallRecord)
    (es : List UiEvent) (t : ModalState) (e : UiEvent) (h1 : t.currentStep = 1) :
    (run (openModal s r) es).currentStep ∈ ([1, 2, 3] : List Nat) ∧
    (step t e).currentStep ≠ 3 ∧
    (∀ u : ModalState, ∀ e2 : UiEvent,
      (step u e2).currentStep = u.currentStep ∨
      (u.currentStep, (step u e2).currentStep) ∈
        ([(1, 2), (2, 1), (2, 3), (3, 2)] : List (Nat × Nat))) := by
  refine ⟨run_mem_range _ es (by simp [openModal]), ?_, ?_⟩
  · rcases step_currentStep_cases t e with hc | ⟨_, hc⟩ | ⟨hc2, _⟩ | ⟨hc2, _⟩
    · rw [hc, h1]; decide
    · rw [hc]; decide
    · rw [h1] at hc2; cases hc2
    · rw [h1] at hc2; cases hc2
  · intro u e2
    rcases step_currentStep_cases u e2 with hc | ⟨hu, hc⟩ | ⟨hu, hc⟩ | ⟨hu, hc⟩
    · exact Or.inl hc
    · right; rw [hu, hc]; simp
    · right; rw [hu, hc]; simp
    · right; rw [hu, hc]; simp

/-- Witness for C6 at the freshly opened DreamNest session, the empty event
sequence and a proceed attempt from Step 1. -/
theorem C6_transition_safety_witness :
    (run (openModal closedModal dreamNestRecall) []).currentStep ∈
      ([1, 2, 3] : List Nat) ∧
    (step (openModal closedModal dreamNestRecall) .markAsDone).currentStep ≠ 3 ∧
    (∀ u : ModalState, ∀ e2 : UiEvent,
      (step u e2).currentStep = u.currentStep ∨
      (u.currentStep, (step u e2).currentStep) ∈
        ([(1, 2), (2, 1), (2, 3), (3, 2)] : List (Nat × Nat))) :=
  C6_transition_safety closedModal dreamNestRecall []
    (openModal closedModal dreamNestRecall) .markAsDone rfl

/-- C7: answering No on Step 1 closes the flow in place — currentStep stays
at 1, so Steps 2 and 3 are never entered in that session — and emits the
not-applicable notification exactly once and the resolved notification zero
times; a closed session absorbs every further event and emits nothing. -/
theorem C7_confirm_false (s : ModalState) (r : RecallRecord)
    (ho : s.isOpen = true) (hr : s.recallProp = some r) (h1 : s.currentStep = 1)
    (t : ModalState) (e : UiEvent) (hc : t.isOpen = false) :
    (stepE s (.confirm false)).1.isOpen = false ∧
    (stepE s (.confirm false)).1.currentStep = 1 ∧
    (stepE s (.confirm false)).2.count .notApplicableToast = 1 ∧
    (stepE s (.confirm false)).2.count .closeWithSuccess = 0 ∧
    stepE t e = (t, []) := by
  have hmain : stepE s (.confirm false) =
      ({ s with isOpen := false }, [.notApplicableToast, .close]) := by
    simp [stepE, ho, hr, h1, handleStep1Confirm]
  refine ⟨by rw [hmain], ?_, by rw [hmain]; rfl, by rw [hmain]; rfl, ?_⟩
  · rw [hmain]; exact h1
  · cases ht : t.isOpen
    · simp [stepE, ht]
    · rw [ht] at hc; cases hc

/-- Witness for C7: the freshly opened DreamNest session answered No, and a
finish event thrown at the closed modal. -/
theorem C7_confirm_false_witness :
    (stepE (openModal closedModal dreamNestRecall) (.confirm false)).1.isOpen = false ∧
    (stepE (openModal closedModal dreamNestRecall) (.confirm false)).1.currentStep = 1 ∧
    (stepE (openModal closedModal dreamNestRecall)
      (.confirm false)).2.count .notApplicableToast = 1 ∧
    (stepE (openModal closedModal dreamNestRecall)
      (.confirm false)).2.count .closeWithSuccess = 0 ∧
    stepE closedModal .finish = (closedModal, []) :=
  C7_confirm_false (openModal closedModal dreamNestRecall) dreamNestRecall
    rfl rfl rfl closedModal .finish rfl

/-- A concrete session standing on Step 3: the DreamNest recall opened,
ownership confirmed, all three checklist items acknowledged, proceed. -/
def step3SessionState : ModalState :=
  run (openModal closedModal dreamNestRecall)
    [.confirm true, .toggle 0, .toggle 1, .toggle 2, .markAsDone]

/-- C8 counterexample: the concrete session stands on Step 3, and every user
event the rendered flow offers leaves currentStep at 3 or closes the modal —
none reaches Step 2, so Step 3 offers no back trigger. -/
theorem C8_back_from_step3_cex :
    step3SessionState.currentStep = 3 ∧
    (allUiEvents.all fun e =>
      (step step3SessionState e).currentStep != 2) = true := by
  decide

/-- C8 (amended): the orchestrator's handleBackToStep2 handler does set
currentStep to 2 with direction backward, but it is never wired to the
Step 3 view (RecallDetailStep3 receives only the record and onClose), so
from Step 3 no user event changes currentStep — the flow stays on 3 until
it closes. -/
theorem C8_back_from_step3_amended (s : ModalState) (e : UiEvent)
    (h3 : s.currentStep = 3) (t : ModalState) :
    (step s e).currentStep = 3 ∧
    (handleBackToStep2 t).currentStep = 2 ∧
    (handleBackToStep2 t).slideDirection = .backward := by
  refine ⟨?_, rfl, rfl⟩
  rcases step_currentStep_cases s e with hc | ⟨hu, _⟩ | ⟨hu, hc⟩ | ⟨hu, _⟩
  · rw [hc, h3]
  · rw [h3] at hu; cases hu
  · rw [h3] at hu; cases hu
  · rw [h3] at hu; cases hu

/-- Witness for C8 (amended): a share event on the concrete Step-3 session. -/
theorem C8_back_from_step3_witness :
    (step step3SessionState .share).currentStep = 3 ∧
    (handleBackToStep2 closedModal).currentStep = 2 ∧
    (handleBackToStep2 closedModal).slideDirection = .backward :=
  C8_back_from_step3_amended step3SessionState .share (by decide) closedModal

/-- C9: toggling preserves distinctness of the acknowledged ids and their
containment in the rendered checklist ids, and under those invariants the
proceed-enabling test (checkedSteps.length equals totalSteps) holds exactly
when every rendered checklist id is acknowledged. -/
theorem C9_no_duplicates (r : RecallRecord) (prev : List Nat) (stepId : Nat)
    (hnd : prev.Nodup) (hsub : ∀ i ∈ prev, i ∈ stepIds r) :
    (toggleStep stepId prev).Nodup ∧
    (stepId ∈ stepIds r → ∀ x ∈ toggleStep stepId prev, x ∈ stepIds r) ∧
    (allStepsComplete r prev = true ↔ allItemsAcknowledged r prev) := by
  refine ⟨toggleStep_nodup _ _ hnd, ?_, allStepsComplete_iff r prev hnd hsub⟩
  intro hid x hx
  rcases mem_of_mem_toggleStep _ _ _ hx with h | h
  · exact hsub x h
  · exact h ▸ hid

/-- Witness for C9 at the concrete state with items 1 and 2 checked and a
toggle of item 3. -/
theorem C9_no_duplicates_witness :
    (toggleStep 3 [1, 2]).Nodup ∧
    ((3 : Nat) ∈ stepIds dreamNestRecall →
      ∀ x ∈ toggleStep 3 [1, 2], x ∈ stepIds dreamNestRecall) ∧
    (allStepsComplete dreamNestRecall [1, 2] = true ↔
      allItemsAcknowledged dreamNestRecall [1, 2]) :=
  C9_no_duplicates dreamNestRecall [1, 2] 3 (by decide) (by decide)

/-- C10: in RecallDetailStep2 toggling the same id twice restores the
acknowledgement set (membership is unchanged) for every id — none is
locked there; in ActionGuideScreen the same holds for every non-locked id,
and toggling the locked id step1 any number of times is the identity. -/
theorem C10_toggle_involution (prev : List Nat) (stepId x : Nat)
    (agPrev : List String) (agId : String) (hlock : agId ≠ "step1")
    (y : String) (n : Nat) :
    (x ∈ toggleStep stepId (toggleStep stepId prev) ↔ x ∈ prev) ∧
    (y ∈ agToggleStep agId (agToggleStep agId agPrev) ↔ y ∈ agPrev) ∧
    (agToggleStep "step1")^[n] agPrev = agPrev := by
  refine ⟨mem_toggleStep_toggleStep _ _ _,
    mem_agToggleStep_agToggleStep _ _ hlock _, ?_⟩
  induction n with
  | zero => rfl
  | succ k ih =>
    rw [Function.iterate_succ_apply, agToggleStep_locked]
    exact ih

/-- Witness for C10 at concrete inputs: id 2 double-toggled on [2, 1], id
step2 double-toggled on [step1], and four toggles of the locked step1. -/
theorem C10_toggle_involution_witness :
    ((1 : Nat) ∈ toggleStep 2 (toggleStep 2 [2, 1]) ↔ (1 : Nat) ∈ [2, 1]) ∧
    ("step3" ∈ agToggleStep "step2" (agToggleStep "step2" ["step1"]) ↔
      "step3" ∈ ["step1"]) ∧
    (agToggleStep "step1")^[4] ["step1"] = ["step1"] :=
  C10_toggle_involution [2, 1] 2 1 ["step1"] "step2" (by decide) "step3" 4

end RecallFlow
